import Mathlib

/-!
Verification of the Israeli Football League e2e test-suite helpers.

The development embeds, in order:
* the pure validator predicates of `src/helpers/validators.ts`;
* the network observer of the suite's `beforeEach` block (request/response
  listeners maintaining an ordered list of `NetworkRequest` records);
* the report aggregator of the "HTTP Request Report" test (counts by
  method, by domain, and by coarse URL type).

JavaScript-specific behaviour is modelled explicitly: string truthiness
(`""` is falsy), `!x` on an optional number (both `undefined` and `0` are
falsy), `String.prototype.trim` and `String.prototype.includes`.
Scores (`number` fields) are modelled as integers; no claim depends on
non-integral values. The platform URL parser (`new URL`) is an external
capability and enters as an explicit parameter returning `none` where the
parser would throw.
-/

namespace Football

/-- Whitespace characters stripped by JS `trim` that are relevant here. -/
def isJsWS (c : Char) : Bool :=
  c == ' ' || c == '\t' || c == '\n' || c == '\r'

/-- Model of JS `String.prototype.trim`: drop leading and trailing whitespace. -/
def jsTrim (s : String) : String :=
  String.mk (((s.toList.dropWhile isJsWS).reverse.dropWhile isJsWS).reverse)

/-- `leadsWith p l` is true when `p` is an initial segment of `l`. -/
def leadsWith : List Char → List Char → Bool
  | [], _ => true
  | _ :: _, [] => false
  | p :: ps, c :: cs => p == c && leadsWith ps cs

/-- `hasSub p l` is true when `p` occurs contiguously inside `l`. -/
def hasSub (p : List Char) : List Char → Bool
  | [] => leadsWith p []
  | c :: cs => leadsWith p (c :: cs) || hasSub p cs

/-- Model of JS `String.prototype.includes`. -/
def jsIncludes (s pat : String) : Bool :=
  hasSub pat.toList s.toList

/-- The `state` tag of `Match` in `src/types/match.types.ts`. -/
inductive MatchState where
  | played
  | upcoming
  | postponed
  | canceled
deriving DecidableEq

/-- The `Match` interface of `src/types/match.types.ts`.  Optional fields
become `Option`; `number` scores are modelled as integers. -/
structure Match where
  homeTeam : String
  awayTeam : String
  homeScore : Option Int := none
  awayScore : Option Int := none
  date : String
  time : Option String := none
  state : Option MatchState := none
  link : Option String := none
deriving DecidableEq

/-- The `NetworkRequest` interface of `src/types/match.types.ts`. -/
structure NetworkRequest where
  url : String
  method : String
  timestamp : Int
  responseTime : Option Int := none
  cached : Option Bool := none
  status : Option Int := none
deriving DecidableEq

/-- The data the response listener reads off a Playwright response: its URL,
status code, and the two headers the code looks up in `response.headers()`
(`cache-control` and `etag`); a header absent from the map is `none`. -/
structure ResponseEvent where
  url : String
  status : Int
  cacheControl : Option String := none
  etag : Option String := none
deriving DecidableEq

/-- `validateMatch` from `src/helpers/validators.ts`.  The JS truthiness
checks on the required string fields are `!= ""`; the `typeof === "string"`
conjuncts are identically true in the typed model and disappear. -/
def validateMatch (m : Match) : Bool :=
  m.homeTeam != "" && m.awayTeam != "" && m.date != "" &&
    decide (0 < (jsTrim m.homeTeam).length) &&
    decide (0 < (jsTrim m.awayTeam).length)

/-- `isPlayedMatch` from `src/helpers/validators.ts`.  The
`typeof === "number"` conjuncts are identically true in the typed model. -/
def isPlayedMatch (m : Match) : Bool :=
  m.homeScore.isSome && m.awayScore.isSome

/-- `isUpcomingMatch` from `src/helpers/validators.ts`. -/
def isUpcomingMatch (m : Match) : Bool :=
  !isPlayedMatch m &&
    (match m.time with
     | none => false
     | some t => decide (0 < (jsTrim t).length))

/-- `validateTeamName` from `src/helpers/validators.ts`; `none` covers both
`null` and `undefined`. -/
def validateTeamName (teamName : Option String) : Bool :=
  match teamName with
  | none => false
  | some s => decide (0 < (jsTrim s).length)

/-- JS truthiness of an optional response-header value: present and non-empty. -/
def jsTruthy : Option String → Bool
  | none => false
  | some s => s != ""

/-- The `!req.responseTime` test of the response listener: `undefined` and
`0` are both falsy in JS. -/
def jsUnresolved (r : NetworkRequest) : Bool :=
  match r.responseTime with
  | none => true
  | some t => t == 0

/-- The predicate of the `networkRequests.find` call in the response
listener: same URL and no truthy `responseTime` yet. -/
def respMatches (resp : ResponseEvent) (r : NetworkRequest) : Bool :=
  r.url == resp.url && jsUnresolved r

/-- The mutation the response listener applies to the record it found:
`responseTime = Date.now() - request.timestamp`, `status`, and the
cache-presence heuristic `!!(cacheControl || etag)`. -/
def applyResponse (now : Int) (resp : ResponseEvent) (r : NetworkRequest) : NetworkRequest :=
  { r with
      responseTime := some (now - r.timestamp)
      status := some resp.status
      cached := some (jsTruthy resp.cacheControl || jsTruthy resp.etag) }

/-- The whole response listener of the suite's `beforeEach`: `Array.find`
locates the first record satisfying `respMatches` and mutates it in place;
when none matches nothing happens. -/
def onResponse (now : Int) (resp : ResponseEvent) : List NetworkRequest → List NetworkRequest
  | [] => []
  | r :: rs =>
    if respMatches resp r then applyResponse now resp r :: rs
    else r :: onResponse now resp rs

/-- The request listener: append a fresh record with `timestamp = Date.now()`. -/
def onRequest (now : Int) (url method : String) (records : List NetworkRequest) :
    List NetworkRequest :=
  records ++ [{ url := url, method := method, timestamp := now }]

/-- The counter-object update `obj[k] = (obj[k] || 0) + 1` on a plain JS
object, modelled as an association list in key-insertion order: an existing
key is incremented in place, a missing key is appended with count 1. -/
def bump : List (String × Nat) → String → List (String × Nat)
  | [], k => [(k, 1)]
  | (k', v) :: rest, k =>
    if k' == k then (k', v + 1) :: rest else (k', v) :: bump rest k

/-- `requestsByMethod` of the HTTP Request Report test: count records by
their `method` field. -/
def requestsByMethod (reqs : List NetworkRequest) : List (String × Nat) :=
  reqs.foldl (fun acc r => bump acc r.method) []

/-- `requestsByDomain` of the HTTP Request Report test.  The code runs
`new URL(req.url).hostname` inside `try`/`catch` and skips the record when
the platform parser throws; the parser is the external parameter
`parseHost`, with `none` standing for the thrown `TypeError`, which the
`catch` swallows. -/
def requestsByDomain (parseHost : String → Option String)
    (reqs : List NetworkRequest) : List (String × Nat) :=
  reqs.foldl
    (fun acc r =>
      match parseHost r.url with
      | some h => bump acc h
      | none => acc)
    []

/-- The four coarse buckets of `requestsByType`. -/
inductive ReqType where
  | api
  | data
  | assets
  | other
deriving DecidableEq

/-- The `if`/`else if` chain of the HTTP Request Report test that picks the
bucket of one URL: `api` when the URL contains `"api"` or `"data"`, else
`assets` when it contains `".js"`, `".css"`, `".png"` or `".jpg"`, else
`data` when it contains `"match"` or `"live"`, else `other`. -/
def classify (url : String) : ReqType :=
  if jsIncludes url "api" || jsIncludes url "data" then .api
  else if jsIncludes url ".js" || jsIncludes url ".css" ||
      jsIncludes url ".png" || jsIncludes url ".jpg" then .assets
  else if jsIncludes url "match" || jsIncludes url "live" then .data
  else .other

/-- The `requestsByType` counters of the report object. -/
structure TypeCounts where
  api : Nat
  data : Nat
  assets : Nat
  other : Nat
deriving DecidableEq

/-- Increment the counter of one bucket. -/
def tick (c : TypeCounts) : ReqType → TypeCounts
  | .api => { c with api := c.api + 1 }
  | .data => { c with data := c.data + 1 }
  | .assets => { c with assets := c.assets + 1 }
  | .other => { c with other := c.other + 1 }

/-- `requestsByType` of the HTTP Request Report test: each record increments
the single counter selected by the `classify` chain on its URL. -/
def requestsByType (reqs : List NetworkRequest) : TypeCounts :=
  reqs.foldl (fun c r => tick c (classify r.url)) ⟨0, 0, 0, 0⟩

/-! ### Helper lemmas -/

/-- A string whose trimmed form is non-empty is itself non-empty. -/
theorem jsTrim_pos_ne_empty (s : String) (h : 0 < (jsTrim s).length) : s ≠ "" := by
  intro he
  rw [he] at h
  exact absurd h (by decide)

/-! ### Validator claims -/

/-- Claim C7: a `Match` with both scores defined is classified as played by
`isPlayedMatch`; a `Match` with either score absent is not. -/
theorem isPlayedMatch_spec (m : Match) :
    (((∃ a, m.homeScore = some a) ∧ ∃ b, m.awayScore = some b) →
      isPlayedMatch m = true) ∧
    ((m.homeScore = none ∨ m.awayScore = none) → isPlayedMatch m = false) := by
  constructor
  · rintro ⟨⟨a, ha⟩, ⟨b, hb⟩⟩
    simp [isPlayedMatch, ha, hb]
  · rintro (h | h) <;> simp [isPlayedMatch, h]

/-- Witness for C7 at concrete matches: one fully scored, one lacking the
away score. -/
theorem isPlayedMatch_spec_witness :
    isPlayedMatch { homeTeam := "A", awayTeam := "B", homeScore := some 2,
                    awayScore := some 0, date := "2024-01-01" } = true ∧
    isPlayedMatch { homeTeam := "A", awayTeam := "B", homeScore := some 2,
                    date := "2024-01-01" } = false :=
  ⟨(isPlayedMatch_spec _).1 ⟨⟨2, rfl⟩, ⟨0, rfl⟩⟩,
   (isPlayedMatch_spec _).2 (Or.inr rfl)⟩

/-- Claim C2 (amended): when `isUpcomingMatch m` holds, `m` is not a played
match — it is not the case that both scores are present — and `m.time` is a
non-empty time string.  (The original claim's stronger "both scores absent"
fails: one score may be present, see the counterexample.) -/
theorem isUpcomingMatch_inv (m : Match) (h : isUpcomingMatch m = true) :
    isPlayedMatch m = false ∧ ∃ t, m.time = some t ∧ t ≠ "" := by
  unfold isUpcomingMatch at h
  rw [Bool.and_eq_true] at h
  obtain ⟨h1, h2⟩ := h
  refine ⟨by simpa using h1, ?_⟩
  cases ht : m.time with
  | none => rw [ht] at h2; exact absurd h2 (by decide)
  | some t =>
    rw [ht] at h2
    simp only [decide_eq_true_eq] at h2
    exact ⟨t, rfl, jsTrim_pos_ne_empty t h2⟩

/-- Witness for C2's amended theorem at a concrete upcoming match. -/
theorem isUpcomingMatch_inv_witness :
    isPlayedMatch { homeTeam := "A", awayTeam := "B", date := "2024-01-01",
                    time := some "20:00" } = false ∧
    ∃ t, ({ homeTeam := "A", awayTeam := "B", date := "2024-01-01",
            time := some "20:00" } : Match).time = some t ∧ t ≠ "" :=
  isUpcomingMatch_inv _ (by decide)

/-- Counterexample to C2 as stated: a match with `homeScore` present (and
`awayScore` absent) still satisfies `isUpcomingMatch`, because the code only
requires `!isPlayedMatch`, which needs merely one score to be missing. -/
theorem isUpcomingMatch_cex :
    isUpcomingMatch { homeTeam := "A", awayTeam := "B", homeScore := some 1,
                      date := "2024-01-01", time := some "20:00" } = true ∧
    ({ homeTeam := "A", awayTeam := "B", homeScore := some 1,
       date := "2024-01-01", time := some "20:00" } : Match).homeScore.isSome = true := by
  decide

/-- Claim C8 (amended): `validateMatch m` holds iff both team names are
non-empty after trimming whitespace and the date is a non-empty string; the
spec's two concrete examples hold.  (The original "non-empty strings" fails
on an all-whitespace team name, see the counterexample.) -/
theorem validateMatch_spec (m : Match) :
    (validateMatch m = true ↔
      (0 < (jsTrim m.homeTeam).length ∧ 0 < (jsTrim m.awayTeam).length ∧
        m.date ≠ "")) ∧
    validateMatch { homeTeam := "A", awayTeam := "B", date := "2024-01-01" } = true ∧
    validateMatch { homeTeam := "", awayTeam := "B", date := "x" } = false := by
  refine ⟨?_, by decide, by decide⟩
  unfold validateMatch
  simp only [Bool.and_eq_true, bne_iff_ne, ne_eq, decide_eq_true_eq]
  constructor
  · rintro ⟨⟨⟨⟨h1, h2⟩, h3⟩, h4⟩, h5⟩
    exact ⟨h4, h5, h3⟩
  · rintro ⟨h1, h2, h3⟩
    exact ⟨⟨⟨⟨jsTrim_pos_ne_empty _ h1, jsTrim_pos_ne_empty _ h2⟩, h3⟩, h1⟩, h2⟩

/-- Witness for C8's amended theorem: a padded but non-blank match validates. -/
theorem validateMatch_spec_witness :
    validateMatch { homeTeam := " Hapoel ", awayTeam := "Maccabi",
                    date := "2024-01-01" } = true :=
  (validateMatch_spec _).1.mpr (by refine ⟨?_, ?_, ?_⟩ <;> decide)

/-- Counterexample to C8 as stated: `homeTeam = " "` is a non-empty string
and the date is present, yet `validateMatch` rejects the record because the
code additionally requires the trimmed names to be non-empty. -/
theorem validateMatch_cex :
    validateMatch { homeTeam := " ", awayTeam := "B", date := "2024-01-01" } = false ∧
    (" " : String) ≠ "" ∧ ("B" : String) ≠ "" ∧ ("2024-01-01" : String) ≠ "" := by
  refine ⟨by decide, by decide, by decide, by decide⟩

/-! ### Network observer claims -/

/-- When no record matches, the response listener leaves the list alone. -/
theorem onResponse_of_no_match (now : Int) (resp : ResponseEvent) :
    ∀ l : List NetworkRequest, (∀ r ∈ l, respMatches resp r = false) →
      onResponse now resp l = l := by
  intro l
  induction l with
  | nil => intro _; rfl
  | cons r rs ih =>
    intro h
    have hr : respMatches resp r = false := h r (List.mem_cons_self r rs)
    have ih' := ih fun x hx => h x (List.mem_cons_of_mem r hx)
    simp [onResponse, hr, ih']

/-- The response listener rewrites exactly the first matching record. -/
theorem onResponse_first_match (now : Int) (resp : ResponseEvent)
    (l₁ : List NetworkRequest) (r : NetworkRequest) (l₂ : List NetworkRequest)
    (h₁ : ∀ r' ∈ l₁, respMatches resp r' = false)
    (h₂ : respMatches resp r = true) :
    onResponse now resp (l₁ ++ r :: l₂) = l₁ ++ applyResponse now resp r :: l₂ := by
  induction l₁ with
  | nil => simp [onResponse, h₂]
  | cons x xs ih =>
    have hx : respMatches resp x = false := h₁ x (List.mem_cons_self x xs)
    have ih' := ih fun y hy => h₁ y (List.mem_cons_of_mem x hy)
    simp [onResponse, hx, ih']

/-- Claim C4 (amended): on a response event, (a) when no record has the
response's URL together with a JS-falsy `responseTime` (unassigned or `0`),
the sequence is unchanged and nothing is raised; (b) otherwise exactly the
earliest such record is rewritten — its `status` becomes the response
status, its `responseTime` becomes `now - timestamp` (the cache flag is
also set) — and every other record is untouched.  (The original claim's
criterion "no responseTime yet assigned" fails: the code's `!req.responseTime`
also re-selects a record whose assigned `responseTime` is `0`, see the
counterexample.) -/
theorem onResponse_update_spec (now : Int) (resp : ResponseEvent)
    (l l₁ l₂ : List NetworkRequest) (r : NetworkRequest) :
    ((∀ r' ∈ l, respMatches resp r' = false) → onResponse now resp l = l) ∧
    ((∀ r' ∈ l₁, respMatches resp r' = false) → respMatches resp r = true →
      onResponse now resp (l₁ ++ r :: l₂) =
        l₁ ++ { r with
                  responseTime := some (now - r.timestamp)
                  status := some resp.status
                  cached := some (jsTruthy resp.cacheControl || jsTruthy resp.etag) } :: l₂) := by
  exact ⟨onResponse_of_no_match now resp l,
    fun h₁ h₂ => onResponse_first_match now resp l₁ r l₂ h₁ h₂⟩

/-- Witness for C4's amended theorem: a two-record list where the second
record matches; only it is rewritten. -/
theorem onResponse_update_spec_witness :
    onResponse 10 { url := "https://a/x", status := 200 }
      ([{ url := "https://a/y", method := "GET", timestamp := 1 }] ++
        { url := "https://a/x", method := "GET", timestamp := 3 } :: []) =
      [{ url := "https://a/y", method := "GET", timestamp := 1 }] ++
        { url := "https://a/x", method := "GET", timestamp := 3, responseTime := some 7,
          cached := some false, status := some 200 } :: [] := by
  have h := (onResponse_update_spec 10 { url := "https://a/x", status := 200 } []
    [{ url := "https://a/y", method := "GET", timestamp := 1 }] []
    { url := "https://a/x", method := "GET", timestamp := 3 }).2
    (by intro r' hr'; fin_cases hr'; decide) (by decide)
  exact h

/-- Counterexample to C4 as stated: the first record already carries an
assigned `responseTime` of `0` while the second has none; the claim demands
that the second (the earliest with no `responseTime` assigned) be updated
and the first left unchanged, but the code re-matches and rewrites the
first and leaves the second untouched. -/
theorem onResponse_cex :
    onResponse 10 { url := "u", status := 204 }
      [{ url := "u", method := "GET", timestamp := 0, responseTime := some 0,
         status := some 200 },
       { url := "u", method := "GET", timestamp := 5 }] =
      [{ url := "u", method := "GET", timestamp := 0, responseTime := some 10,
         cached := some false, status := some 204 },
       { url := "u", method := "GET", timestamp := 5 }] ∧
    ({ url := "u", method := "GET", timestamp := 0, responseTime := some 0,
       status := some 200 } : NetworkRequest).responseTime = some 0 ∧
    ({ url := "u", method := "GET", timestamp := 5 } : NetworkRequest).responseTime = none := by
  refine ⟨by decide, rfl, rfl⟩

/-- Claim C3 (amended): when a response event is matched to a record, the
record's `cached` flag is set, and it is `true` iff the response carried a
`cache-control` header with a non-empty value or an `etag` header with a
non-empty value.  (The original "carried a … header" fails on a header
present with the empty string as value, which is falsy in JS, see the
counterexample.) -/
theorem cached_flag_spec (now : Int) (resp : ResponseEvent)
    (l₁ l₂ : List NetworkRequest) (r : NetworkRequest)
    (h₁ : ∀ r' ∈ l₁, respMatches resp r' = false)
    (h₂ : respMatches resp r = true) :
    ∃ r', onResponse now resp (l₁ ++ r :: l₂) = l₁ ++ r' :: l₂ ∧
      (r'.cached = some true ↔
        ((∃ s, resp.cacheControl = some s ∧ s ≠ "") ∨
          (∃ s, resp.etag = some s ∧ s ≠ ""))) ∧
      (r'.cached = some true ∨ r'.cached = some false) := by
  refine ⟨applyResponse now resp r, onResponse_first_match now resp l₁ r l₂ h₁ h₂, ?_, ?_⟩
  · simp only [applyResponse, Option.some.injEq, Bool.or_eq_true]
    constructor
    · rintro (hc | he)
      · left
        cases hcc : resp.cacheControl with
        | none => rw [hcc] at hc; exact absurd hc (by decide)
        | some s =>
          rw [hcc] at hc
          exact ⟨s, rfl, by simpa [jsTruthy] using hc⟩
      · right
        cases het : resp.etag with
        | none => rw [het] at he; exact absurd he (by decide)
        | some s =>
          rw [het] at he
          exact ⟨s, rfl, by simpa [jsTruthy] using he⟩
    · rintro (⟨s, hs, hne⟩ | ⟨s, hs, hne⟩)
      · exact Or.inl (by simp [jsTruthy, hs, hne])
      · exact Or.inr (by simp [jsTruthy, hs, hne])
  · rcases hb : jsTruthy resp.cacheControl || jsTruthy resp.etag with _ | _
    · exact Or.inr (by simp [applyResponse, hb])
    · exact Or.inl (by simp [applyResponse, hb])

/-- Witness for C3's amended theorem: a matched response carrying a
non-empty `cache-control` value. -/
theorem cached_flag_spec_witness :
    ∃ r', onResponse 5 { url := "u", status := 200, cacheControl := some "max-age=600" }
        ([] ++ { url := "u", method := "GET", timestamp := 0 } :: []) = [] ++ r' :: [] ∧
      (r'.cached = some true ↔
        ((∃ s, ({ url := "u", status := 200, cacheControl := some "max-age=600" } :
            ResponseEvent).cacheControl = some s ∧ s ≠ "") ∨
          (∃ s, ({ url := "u", status := 200, cacheControl := some "max-age=600" } :
            ResponseEvent).etag = some s ∧ s ≠ ""))) ∧
      (r'.cached = some true ∨ r'.cached = some false) :=
  cached_flag_spec 5 _ [] [] _ (by intro r' hr'; cases hr') (by decide)

/-- Counterexample to C3 as stated: the response carries a `cache-control`
header whose value is the empty string (and no `etag`); the matched record
ends with `cached = some false` although a `cache-control` header was
carried, because `!!("" || undefined)` is `false` in JS. -/
theorem cached_flag_cex :
    onResponse 5 { url := "u", status := 200, cacheControl := some "" }
      [{ url := "u", method := "GET", timestamp := 0 }] =
      [{ url := "u", method := "GET", timestamp := 0, responseTime := some 5,
         cached := some false, status := some 200 }] ∧
    ({ url := "u", status := 200, cacheControl := some "" } :
      ResponseEvent).cacheControl.isSome = true := by
  refine ⟨by decide, rfl⟩

/-! ### Report aggregator claims -/

/-- After bumping key `k`, looking up `k` yields the old count (0 when the
key was absent) plus one. -/
theorem bump_lookup_self (acc : List (String × Nat)) (k : String) :
    (bump acc k).lookup k = some (((acc.lookup k).getD 0) + 1) := by
  induction acc with
  | nil => simp [bump, List.lookup]
  | cons p rest ih =>
    obtain ⟨k', v⟩ := p
    by_cases h : k' = k
    · subst h
      simp [bump, List.lookup]
    · have h1 : (k' == k) = false := by simp [h]
      have h2 : (k == k') = false := by simp [Ne.symm h]
      simp [bump, List.lookup, h1, h2, ih]

/-- Bumping key `k` does not change the count looked up at a different key. -/
theorem bump_lookup_other (acc : List (String × Nat)) (k m : String)
    (hkm : (k == m) = false) :
    (bump acc k).lookup m = acc.lookup m := by
  induction acc with
  | nil =>
    have h2 : (m == k) = false := by
      simp only [beq_eq_false_iff_ne, ne_eq] at hkm ⊢
      exact Ne.symm hkm
    simp [bump, List.lookup, h2]
  | cons p rest ih =>
    obtain ⟨k', v⟩ := p
    by_cases h : k' = k
    · subst h
      have h2 : (m == k') = false := by
        simp only [beq_eq_false_iff_ne, ne_eq] at hkm ⊢
        exact Ne.symm hkm
      simp [bump, List.lookup, h2]
    · have h1 : (k' == k) = false := by simp [h]
      by_cases hm : m = k'
      · subst hm
        simp [bump, List.lookup, h1]
      · have h3 : (m == k') = false := by simp [hm]
        simp [bump, List.lookup, h1, h3, ih]

/-- Counting keys into a JS object with `bump`: the final count under a key
is the accumulator's count plus the number of records mapped to that key,
and the key is absent exactly when it was absent initially and no record
maps to it. -/
theorem foldl_bump_lookup (f : NetworkRequest → Option String) (m : String) :
    ∀ (reqs : List NetworkRequest) (acc : List (String × Nat)),
      (reqs.foldl (fun a r => match f r with | some k => bump a k | none => a) acc).lookup m =
        (match acc.lookup m with
         | some v => some (v + reqs.countP (fun r => f r == some m))
         | none =>
           if reqs.countP (fun r => f r == some m) = 0 then none
           else some (reqs.countP (fun r => f r == some m))) := by
  intro reqs
  induction reqs with
  | nil =>
    intro acc
    cases h : acc.lookup m <;> simp [h]
  | cons r rs ih =>
    intro acc
    cases hf : f r with
    | none =>
      have hcount : (r :: rs).countP (fun x => f x == some m) =
          rs.countP (fun x => f x == some m) := by
        simp [List.countP_cons, hf]
      rw [hcount]
      simp only [List.foldl_cons, hf]
      exact ih acc
    | some k =>
      by_cases hk : k = m
      · have hcount : (r :: rs).countP (fun x => f x == some m) =
            rs.countP (fun x => f x == some m) + 1 := by
          simp [List.countP_cons, hf, hk]
        rw [hcount]
        simp only [List.foldl_cons, hf]
        rw [hk, ih (bump acc m), bump_lookup_self]
        cases h : acc.lookup m with
        | none => simp [h]; omega
        | some v => simp [h]; omega
      · have hne : (k == m) = false := by simp [hk]
        have hcount : (r :: rs).countP (fun x => f x == some m) =
            rs.countP (fun x => f x == some m) := by
          simp [List.countP_cons, hf, hk]
        rw [hcount]
        simp only [List.foldl_cons, hf]
        rw [ih (bump acc k), bump_lookup_other acc k m hne]

/-- Claim C5: `requestsByMethod` maps each HTTP method to the number of
recorded requests with that method, methods with no request being absent
from the object; on the spec's example of three requests with methods
GET, GET, POST it yields exactly the counts 2 and 1. -/
theorem requestsByMethod_spec :
    (∀ (reqs : List NetworkRequest) (m : String),
      (requestsByMethod reqs).lookup m =
        (if reqs.countP (fun r => r.method == m) = 0 then none
         else some (reqs.countP (fun r => r.method == m)))) ∧
    requestsByMethod
      [{ url := "u1", method := "GET", timestamp := 0 },
       { url := "u2", method := "GET", timestamp := 1 },
       { url := "u3", method := "POST", timestamp := 2 }] = [("GET", 2), ("POST", 1)] := by
  constructor
  · intro reqs m
    have h := foldl_bump_lookup (fun r => some r.method) m reqs []
    have hcong : (fun r : NetworkRequest => ((some r.method : Option String) == some m)) =
        (fun r : NetworkRequest => (r.method == m)) := funext fun r => rfl
    rw [hcong] at h
    simpa using h
  · decide

/-- A hostname extractor standing for the platform URL parser on two fixed
inputs, used to witness the domain-count theorem. -/
def pHostDemo (s : String) : Option String :=
  if s == "https://www.one.co.il/live" then some "www.one.co.il" else none

/-- Claim C6: `requestsByDomain` counts, for every hostname, the requests
whose URL the platform parser resolves to that hostname, and a request
whose URL the parser rejects (the thrown error is caught) is skipped: the
аggregation is a total function and appending an unparsable request leaves
the domain counts unchanged. -/
theorem requestsByDomain_spec :
    (∀ (parseHost : String → Option String) (reqs : List NetworkRequest) (h : String),
      (requestsByDomain parseHost reqs).lookup h =
        (if reqs.countP (fun r => parseHost r.url == some h) = 0 then none
         else some (reqs.countP (fun r => parseHost r.url == some h)))) ∧
    (∀ (parseHost : String → Option String) (reqs : List NetworkRequest)
      (r : NetworkRequest), parseHost r.url = none →
      requestsByDomain parseHost (reqs ++ [r]) = requestsByDomain parseHost reqs) := by
  constructor
  · intro parseHost reqs h
    have hh := foldl_bump_lookup (fun r => parseHost r.url) h reqs []
    simpa using hh
  · intro parseHost reqs r hr
    unfold requestsByDomain
    rw [List.foldl_append]
    simp [hr]

/-- Witness for C6: appending a request with an unparsable URL leaves the
domain counts unchanged. -/
theorem requestsByDomain_spec_witness :
    requestsByDomain pHostDemo
      ([{ url := "https://www.one.co.il/live", method := "GET", timestamp := 0 }] ++
        [{ url := "not a url", method := "GET", timestamp := 1 }]) =
      requestsByDomain pHostDemo
        [{ url := "https://www.one.co.il/live", method := "GET", timestamp := 0 }] :=
  requestsByDomain_spec.2 pHostDemo _ _ (by decide)

/-- Folding the `requestsByType` tick over any accumulator adds, to each
bucket, the number of records classified into that bucket. -/
theorem requestsByType_go :
    ∀ (reqs : List NetworkRequest) (acc : TypeCounts),
      reqs.foldl (fun c r => tick c (classify r.url)) acc =
        { api := acc.api + reqs.countP (fun r => classify r.url == ReqType.api)
          data := acc.data + reqs.countP (fun r => classify r.url == ReqType.data)
          assets := acc.assets + reqs.countP (fun r => classify r.url == ReqType.assets)
          other := acc.other + reqs.countP (fun r => classify r.url == ReqType.other) } := by
  intro reqs
  induction reqs with
  | nil => intro acc; simp
  | cons r rs ih =>
    intro acc
    rw [List.foldl_cons, ih]
    cases hc : classify r.url <;>
      simp [tick, hc, List.countP_cons, TypeCounts.mk.injEq, beq_iff_eq] <;> omega

/-- Each record lands in exactly one bucket, so the four per-bucket counts
partition the record list. -/
theorem countP_classify_partition (reqs : List NetworkRequest) :
    reqs.countP (fun r => classify r.url == ReqType.api) +
      reqs.countP (fun r => classify r.url == ReqType.data) +
      reqs.countP (fun r => classify r.url == ReqType.assets) +
      reqs.countP (fun r => classify r.url == ReqType.other) = reqs.length := by
  induction reqs with
  | nil => simp
  | cons r rs ih =>
    cases hc : classify r.url <;>
      simp [List.countP_cons, hc, beq_iff_eq] <;> omega

/-- Claim C1 (amended): the report assigns exactly one coarse type to every
recorded request — the four bucket counters are the counts under `classify`
and sum to the number of requests — where `classify` does substring
matching on the URL with first match winning in the order: `api` (URL
contains `"api"` or `"data"`), then `assets` (URL contains `".js"`,
`".css"`, `".png"` or `".jpg"`), then `data` (URL contains `"match"` or
`"live"`), then `other`.  (The original claim's order api, data, assets
fails: a URL matching both a data pattern and an assets pattern is
classified as `assets`, see the counterexample.) -/
theorem requestsByType_spec (reqs : List NetworkRequest) (url : String) :
    ((requestsByType reqs).api + (requestsByType reqs).data +
        (requestsByType reqs).assets + (requestsByType reqs).other = reqs.length) ∧
    ((requestsByType reqs).api = reqs.countP (fun r => classify r.url == ReqType.api)) ∧
    ((requestsByType reqs).data = reqs.countP (fun r => classify r.url == ReqType.data)) ∧
    ((requestsByType reqs).assets = reqs.countP (fun r => classify r.url == ReqType.assets)) ∧
    ((requestsByType reqs).other = reqs.countP (fun r => classify r.url == ReqType.other)) ∧
    ((jsIncludes url "api" || jsIncludes url "data") = true →
      classify url = ReqType.api) ∧
    ((jsIncludes url "api" || jsIncludes url "data") = false →
      (jsIncludes url ".js" || jsIncludes url ".css" ||
        jsIncludes url ".png" || jsIncludes url ".jpg") = true →
      classify url = ReqType.assets) ∧
    ((jsIncludes url "api" || jsIncludes url "data") = false →
      (jsIncludes url ".js" || jsIncludes url ".css" ||
        jsIncludes url ".png" || jsIncludes url ".jpg") = false →
      (jsIncludes url "match" || jsIncludes url "live") = true →
      classify url = ReqType.data) ∧
    ((jsIncludes url "api" || jsIncludes url "data") = false →
      (jsIncludes url ".js" || jsIncludes url ".css" ||
        jsIncludes url ".png" || jsIncludes url ".jpg") = false →
      (jsIncludes url "match" || jsIncludes url "live") = false →
      classify url = ReqType.other) := by
  have hgo := requestsByType_go reqs ⟨0, 0, 0, 0⟩
  have hapi : (requestsByType reqs).api =
      reqs.countP (fun r => classify r.url == ReqType.api) := by
    unfold requestsByType; rw [hgo]; simp
  have hdata : (requestsByType reqs).data =
      reqs.countP (fun r => classify r.url == ReqType.data) := by
    unfold requestsByType; rw [hgo]; simp
  have hassets : (requestsByType reqs).assets =
      reqs.countP (fun r => classify r.url == ReqType.assets) := by
    unfold requestsByType; rw [hgo]; simp
  have hother : (requestsByType reqs).other =
      reqs.countP (fun r => classify r.url == ReqType.other) := by
    unfold requestsByType; rw [hgo]; simp
  refine ⟨?_, hapi, hdata, hassets, hother, ?_, ?_, ?_, ?_⟩
  · rw [hapi, hdata, hassets, hother]
    exact countP_classify_partition reqs
  · intro h1; simp [classify, h1]
  · intro h1 h2; simp [classify, h1, h2]
  · intro h1 h2 h3; simp [classify, h1, h2, h3]
  · intro h1 h2 h3; simp [classify, h1, h2, h3]

/-- Witness for C1's amended theorem: an api-pattern URL goes to `api`, and
a URL with both a data pattern and an assets pattern goes to `assets`. -/
theorem requestsByType_spec_witness :
    classify "https://www.one.co.il/api/scores" = ReqType.api ∧
    classify "https://x.co.il/live/app.js" = ReqType.assets :=
  ⟨(requestsByType_spec [] "https://www.one.co.il/api/scores").2.2.2.2.2.1 (by decide),
   (requestsByType_spec [] "https://x.co.il/live/app.js").2.2.2.2.2.2.1
     (by decide) (by decide)⟩

/-- Counterexample to C1 as stated: the URL contains the data pattern
`"live"` and the assets pattern `".js"` (and no api pattern), yet is
classified as `assets`, not `data`, because the code tries the assets
patterns before the match/live patterns. -/
theorem requestsByType_cex :
    jsIncludes "https://x.co.il/live/app.js" "live" = true ∧
    jsIncludes "https://x.co.il/live/app.js" ".js" = true ∧
    jsIncludes "https://x.co.il/live/app.js" "api" = false ∧
    jsIncludes "https://x.co.il/live/app.js" "data" = false ∧
    classify "https://x.co.il/live/app.js" = ReqType.assets ∧
    ReqType.assets ≠ ReqType.data := by
  refine ⟨by decide, by decide, by decide, by decide, by decide, by decide⟩

end Football
